import Mathlib

/-!
Verification of `src/pipelines/europarl.py` (the `Pipeline` class of the
PromptixDev/pipelines repository) against its natural-language specification.

The Python module is shallowly embedded: JSON-like values become the
inductive type `Value`, Python dicts become association lists, and each
method of the `Pipeline` class becomes an executable Lean function of the
same name.  Python exceptions are modelled with `Except PyError`; the one
outbound HTTP GET is modelled by an `HttpOutcome` oracle supplied as an
argument.

The source file stores its non-ASCII literals in mojibake form (UTF-8 bytes
that were decoded as Windows-1252 and re-encoded, e.g. the bytes
`c3 83 c2 a9` standing where `é` was intended).  The embedding reproduces
those literals codepoint-for-codepoint with `\u` escapes, because several
behaviours (the French regex alternatives, the accented country synonyms)
hinge on the exact characters the Python interpreter sees.
-/

namespace Europarl

/-- JSON-like values as handled by the pipeline: the payload of the HTTP
response, the records it contains, and the static sample records. -/
inductive Value where
  | str (s : String)
  | int (n : Int)
  | bool (b : Bool)
  | list (items : List Value)
  | obj (fields : List (String × Value))

instance : Inhabited Value := ⟨.str ""⟩

mutual

/-- Structural equality of values, modelling Python's `==` on JSON data
(strings, integers, booleans, lists, dicts; values of different shapes
compare unequal). -/
def valueBeq : Value → Value → Bool
  | .str a, .str b => a == b
  | .int a, .int b => a == b
  | .bool a, .bool b => a == b
  | .list a, .list b => valueListBeq a b
  | .obj a, .obj b => valueObjBeq a b
  | _, _ => false

/-- Elementwise equality of lists of values. -/
def valueListBeq : List Value → List Value → Bool
  | [], [] => true
  | a :: as, b :: bs => valueBeq a b && valueListBeq as bs
  | _, _ => false

/-- Bindingwise equality of dicts (association lists). -/
def valueObjBeq : List (String × Value) → List (String × Value) → Bool
  | [], [] => true
  | (k, v) :: as, (k', v') :: bs => k == k' && valueBeq v v' && valueObjBeq as bs
  | _, _ => false

end

instance : BEq Value := ⟨valueBeq⟩

/-- A Python dict with string keys, as used for MEP records. -/
abbrev Record := List (String × Value)

/-- Python's `str.lower`, modelled for ASCII letters and the Latin-1
supplement (`U+00C0`–`U+00DE` except the multiplication sign), which covers
every character appearing in the source literals and in the concrete
queries used below; other characters are left unchanged. -/
def pyCharLower (c : Char) : Char :=
  if 'A' ≤ c ∧ c ≤ 'Z' then Char.ofNat (c.toNat + 32)
  else if (0xC0 ≤ c.toNat ∧ c.toNat ≤ 0xDE) ∧ c.toNat ≠ 0xD7 then Char.ofNat (c.toNat + 32)
  else c

/-- Python's `str.lower` applied to a whole string. -/
def pyLower (s : String) : String := String.mk (s.data.map pyCharLower)

/-- Whether `p` occurs as a contiguous run inside `l`: the model of
Python's `needle in haystack` substring test, on character lists. -/
def listContainsRun (p : List Char) : List Char → Bool
  | [] => p.isEmpty
  | c :: rest => p.isPrefixOf (c :: rest) || listContainsRun p rest

/-- Python's `needle in haystack` substring test on strings. -/
def pyIn (needle hay : String) : Bool := listContainsRun needle.data hay.data

/-- Characters accepted by Python's `\s` regex class (ASCII range). -/
def pyIsSpace (c : Char) : Bool :=
  c = ' ' || c = '\t' || c = '\n' || c = '\x0d' || c = '\x0b' || c = '\x0c'

/-- Python's `str.strip()` with no argument: drop leading and trailing
whitespace. -/
def pyStrip (s : String) : String :=
  String.mk (((s.data.dropWhile pyIsSpace).reverse.dropWhile pyIsSpace).reverse)

/-- Python's `str.split(sep)` for a one-character separator. -/
def pySplitChar (sep : Char) (l : List Char) : List (List Char) :=
  match l with
  | [] => [[]]
  | c :: rest =>
    let tail := pySplitChar sep rest
    if c = sep then [] :: tail
    else
      match tail with
      | [] => [[c]]
      | t :: ts => (c :: t) :: ts

/-- Python's `repr` escaping for one character inside a quoted string
(backslash, the quote character, and the common control characters). -/
def pyEscapeChar (quote : Char) (c : Char) : List Char :=
  if c = '\\' then ['\\', '\\']
  else if c = quote then ['\\', quote]
  else if c = '\n' then ['\\', 'n']
  else if c = '\x0d' then ['\\', 'r']
  else if c = '\t' then ['\\', 't']
  else [c]

/-- Python's `repr` of a string: single quotes, switching to double quotes
when the string contains a single quote but no double quote. -/
def pyReprString (s : String) : String :=
  let quote : Char :=
    if s.data.contains '\'' ∧ ¬ s.data.contains '"' then '"' else '\''
  String.mk (quote :: (s.data.flatMap (pyEscapeChar quote)) ++ [quote])

mutual

/-- Python's `str(v)`: identity on strings, decimal on integers,
`True`/`False` on booleans, `repr`-style rendering on containers. -/
def pyStr : Value → String
  | .str s => s
  | .int n => toString n
  | .bool b => if b then "True" else "False"
  | .list items => "[" ++ String.mk ((pyReprList items).data) ++ "]"
  | .obj fields => "\x7b" ++ String.mk ((pyReprObj fields).data) ++ "\x7d"

/-- Python's `repr(v)`, used for values nested inside containers. -/
def pyRepr : Value → String
  | .str s => pyReprString s
  | .int n => toString n
  | .bool b => if b then "True" else "False"
  | .list items => "[" ++ String.mk ((pyReprList items).data) ++ "]"
  | .obj fields => "\x7b" ++ String.mk ((pyReprObj fields).data) ++ "\x7d"

/-- Comma-separated `repr`s of the items of a list. -/
def pyReprList : List Value → String
  | [] => ""
  | [v] => pyRepr v
  | v :: rest => pyRepr v ++ ", " ++ pyReprList rest

/-- Comma-separated `key: value` `repr`s of the bindings of a dict. -/
def pyReprObj : List (String × Value) → String
  | [] => ""
  | [(k, v)] => pyReprString k ++ ": " ++ pyRepr v
  | (k, v) :: rest => pyReprString k ++ ": " ++ pyRepr v ++ ", " ++ pyReprObj rest

end

/-- Python's truthiness test on a value. -/
def pyTruthy : Value → Bool
  | .str s => s ≠ ""
  | .int n => n ≠ 0
  | .bool b => b
  | .list items => ¬ items.isEmpty
  | .obj fields => ¬ fields.isEmpty

/-- The Python type name of a value, used in exception messages. -/
def pyTypeName : Value → String
  | .str _ => "str"
  | .int _ => "int"
  | .bool _ => "bool"
  | .list _ => "list"
  | .obj _ => "dict"

/-! ## Regex models

`parse_query` uses three regexes of the shape
`(?:W1|W2|W3).*?(?:U1|U2)\s+(\d{4})` and one date regex
`(\d{4})-(\d{1,2})-(\d{1,2})`.  They are modelled by explicit scans with
`re.search` semantics: leftmost match wins, the lazy `.*?` makes the
captured group the earliest suffix occurrence after the matched lead word.
The alternatives of each group are pairwise prefix-incompatible, so
alternation order is immaterial. -/

/-- Numeric value of four ASCII digit characters. -/
def digitsToNat (a b c d : Char) : Nat :=
  (a.toNat - 48) * 1000 + (b.toNat - 48) * 100 + (c.toNat - 48) * 10 + (d.toNat - 48)

/-- Model of `\d{4}` at the current position: four digit characters
(anything may follow). -/
def fourDigitsHere : List Char → Option Nat
  | a :: b :: c :: d :: _ =>
    if a.isDigit ∧ b.isDigit ∧ c.isDigit ∧ d.isDigit then some (digitsToNat a b c d) else none
  | _ => none

/-- Model of `\s*\d{4}…` after the first mandatory whitespace character:
skip the remaining whitespace run, then read four digits. -/
def skipSpacesThenYear : List Char → Option Nat
  | [] => none
  | c :: rest => if pyIsSpace c then skipSpacesThenYear rest else fourDigitsHere (c :: rest)

/-- Model of `\s+(\d{4})` at the current position. -/
def spacesThenYear : List Char → Option Nat
  | [] => none
  | c :: rest => if pyIsSpace c then skipSpacesThenYear rest else none

/-- Try each word of an alternation at the current position; on a hit,
return the input with the word consumed. -/
def matchWordHere (words : List String) (l : List Char) : Option (List Char) :=
  match words with
  | [] => none
  | w :: ws => if w.data.isPrefixOf l then some (l.drop w.data.length) else matchWordHere ws l

/-- Scan for the earliest position where one of `words` occurs followed by
`\s+(\d{4})`, returning the captured year. -/
def findLinkYear (words : List String) : List Char → Option Nat
  | [] => none
  | c :: rest =>
    match matchWordHere words (c :: rest) with
    | some after =>
      match spacesThenYear after with
      | some y => some y
      | none => findLinkYear words rest
    | none => findLinkYear words rest

/-- `re.search` for `(?:lead words).*?(?:link words)\s+(\d{4})`: the match
starts at the earliest lead-word occurrence that is followed (anywhere
later) by a link word and a year; the captured year is the earliest such
occurrence after that lead word. -/
def searchBirthYear (leadWords linkWords : List String) : List Char → Option Nat
  | [] => none
  | c :: rest =>
    match matchWordHere leadWords (c :: rest) with
    | some after =>
      match findLinkYear linkWords after with
      | some y => some y
      | none => searchBirthYear leadWords linkWords rest
    | none => searchBirthYear leadWords linkWords rest

/-- Model of `(\d{1,2})` followed by a required character `next`: greedily
take two digits, backtracking to one, and return the captured digits and
the rest after `next`. -/
def oneOrTwoDigitsThen (next : Char) : List Char → Option (List Char × List Char)
  | a :: b :: c :: rest =>
    if a.isDigit then
      if b.isDigit then
        if c = next then some ([a, b], rest)
        else if b = next then some ([a], c :: rest)
        else none
      else if b = next then some ([a], c :: rest)
      else none
    else none
  | [a, b] => if a.isDigit ∧ b = next then some ([a], []) else none
  | _ => none

/-- Model of the final `(\d{1,2})` of the date regex: greedily take two
digits, else one. -/
def oneOrTwoDigits : List Char → Option (List Char)
  | a :: b :: _ => if a.isDigit then some (if b.isDigit then [a, b] else [a]) else none
  | [a] => if a.isDigit then some [a] else none
  | _ => none

/-- Python's `f"{s:0>2}"`: left-pad with `0` to width 2. -/
def padTwo (s : List Char) : List Char :=
  if s.length = 1 then '0' :: s else s

/-- Try the date regex `(\d{4})-(\d{1,2})-(\d{1,2})` at the current
position, returning the zero-padded `YYYY-MM-DD` string built by
`parse_query`. -/
def dateHere (l : List Char) : Option String :=
  match l with
  | y1 :: y2 :: y3 :: y4 :: '-' :: rest =>
    if y1.isDigit ∧ y2.isDigit ∧ y3.isDigit ∧ y4.isDigit then
      match oneOrTwoDigitsThen '-' rest with
      | some (m, rest') =>
        match oneOrTwoDigits rest' with
        | some d => some (String.mk ([y1, y2, y3, y4] ++ '-' :: padTwo m ++ '-' :: padTwo d))
        | none => none
      | none => none
    else none
  | _ => none

/-- `re.search` for the date regex: earliest position where it matches. -/
def searchDate : List Char → Option String
  | [] => none
  | c :: rest =>
    match dateHere (c :: rest) with
    | some s => some s
    | none => searchDate rest

/-! ## Configuration and query parsing -/

/-- The pipeline's configuration (`Pipeline.Valves`), with the defaults of
the source. -/
structure Valves where
  API_BASE_URL : String := "https://data.europarl.europa.eu/api/v2"
  MAX_RESULTS : Int := 10
  TIMEOUT : Int := 30
deriving Repr, DecidableEq

/-- The default configuration, as built by `Pipeline.__init__`. -/
def defaultValves : Valves := {}

/-- `self.country_mapping` in its literal (insertion) order.  The accented
keys are the mojibake characters stored in the source file. -/
def country_mapping : List (String × String) := [
  ("france", "FR"), ("franÃ§ais", "FR"), ("french", "FR"), ("francais", "FR"),
  ("germany", "DE"), ("allemagne", "DE"), ("deutsch", "DE"), ("german", "DE"),
  ("italy", "IT"), ("italie", "IT"), ("italian", "IT"), ("italiano", "IT"),
  ("spain", "ES"), ("espagne", "ES"), ("spanish", "ES"), ("espaÃ±ol", "ES"),
  ("poland", "PL"), ("pologne", "PL"), ("polish", "PL"),
  ("netherlands", "NL"), ("pays-bas", "NL"), ("dutch", "NL"),
  ("belgium", "BE"), ("belgique", "BE"), ("belgian", "BE"),
  ("austria", "AT"), ("autriche", "AT"), ("austrian", "AT"),
  ("portugal", "PT"), ("portugais", "PT"), ("portuguese", "PT"),
  ("greece", "GR"), ("grÃ¨ce", "GR"), ("greek", "GR"),
  ("czech", "CZ"), ("tchÃ¨que", "CZ"), ("czech republic", "CZ"),
  ("hungary", "HU"), ("hongrie", "HU"), ("hungarian", "HU"),
  ("sweden", "SE"), ("suÃ¨de", "SE"), ("swedish", "SE"),
  ("denmark", "DK"), ("danemark", "DK"), ("danish", "DK"),
  ("finland", "FI"), ("finlande", "FI"), ("finnish", "FI"),
  ("ireland", "IE"), ("irlande", "IE"), ("irish", "IE"),
  ("slovakia", "SK"), ("slovaquie", "SK"), ("slovak", "SK"),
  ("slovenia", "SI"), ("slovÃ©nie", "SI"), ("slovenian", "SI"),
  ("estonia", "EE"), ("estonie", "EE"), ("estonian", "EE"),
  ("latvia", "LV"), ("lettonie", "LV"), ("latvian", "LV"),
  ("lithuania", "LT"), ("lituanie", "LT"), ("lithuanian", "LT"),
  ("luxembourg", "LU"), ("luxembourgeois", "LU"),
  ("malta", "MT"), ("malte", "MT"), ("maltese", "MT"),
  ("cyprus", "CY"), ("chypre", "CY"), ("cypriot", "CY"),
  ("croatia", "HR"), ("croatie", "HR"), ("croatian", "HR"),
  ("bulgaria", "BG"), ("bulgarie", "BG"), ("bulgarian", "BG"),
  ("romania", "RO"), ("roumanie", "RO"), ("romanian", "RO"),
  ("uk", "GB"), ("britain", "GB"), ("british", "GB"), ("united kingdom", "GB"), ("royaume-uni", "GB")]

/-- `self.data_types`: data type identifier to display name. -/
def data_types : List (String × String) := [
  ("meps", "Members of European Parliament"),
  ("meetings", "Parliamentary meetings and events"),
  ("adopted-texts", "Legislative and non-legislative acts"),
  ("documents", "Parliamentary documents and reports"),
  ("questions", "Parliamentary questions and answers"),
  ("plenary-sessions", "Plenary session documents")]

/-- The keyword lists of `parse_query`'s data-type detection, in the
`if`/`elif` order of the source. -/
def meetingWords : List String := ["meeting", "rÃ©union", "session", "sÃ©ance"]

/-- Keywords selecting the `adopted-texts` data type. -/
def adoptedWords : List String := ["adopted", "resolution", "directive", "regulation", "adoptÃ©"]

/-- Keywords selecting the `documents` data type. -/
def documentWords : List String := ["document", "report", "rapport", "motion"]

/-- Keywords selecting the `questions` data type. -/
def questionWords : List String := ["question", "answer", "rÃ©ponse", "interpellation"]

/-- Keywords selecting the `plenary-sessions` data type. -/
def plenaryWords : List String := ["plenary", "pleniÃ¨re", "verbatim", "agenda"]

/-- The lead-word alternation `(?:nÃ©|born|naissance)` shared by the three
birth-year regexes (the first alternative being the mojibake of `né`). -/
def birthLeadWords : List String := ["nÃ©", "born", "naissance"]

/-- The link words of the `birth_year_after` regex (`aprÃ¨s|after`). -/
def afterLinkWords : List String := ["aprÃ¨s", "after"]

/-- The link words of the `birth_year_before` regex (`avant|before`). -/
def beforeLinkWords : List String := ["avant", "before"]

/-- The link words of the `birth_year` regex (`en|in`). -/
def inLinkWords : List String := ["en", "in"]

/-- The filter set built by `parse_query`: a dict whose `data_type` key is
always set and whose remaining keys are optional (`none` models an absent
key). -/
structure Filters where
  data_type : String
  country : Option String := none
  birth_year_after : Option Nat := none
  birth_year_before : Option Nat := none
  birth_year : Option Nat := none
  date : Option String := none
deriving Repr, DecidableEq

/-- `Pipeline.parse_query`: lower-case the query, detect the data type by
keyword membership in a fixed priority order, the country by the first
mapping entry whose key occurs in the lowered query, and the birth-year
and date fields by the regex models. -/
def parse_query (query : String) : Filters :=
  let ql := pyLower query
  let data_type :=
    if meetingWords.any (fun w => pyIn w ql) then "meetings"
    else if adoptedWords.any (fun w => pyIn w ql) then "adopted-texts"
    else if documentWords.any (fun w => pyIn w ql) then "documents"
    else if questionWords.any (fun w => pyIn w ql) then "questions"
    else if plenaryWords.any (fun w => pyIn w ql) then "plenary-sessions"
    else "meps"
  { data_type := data_type
    country := (country_mapping.find? (fun p => pyIn p.1 ql)).map (·.2)
    birth_year_after := searchBirthYear birthLeadWords afterLinkWords ql.data
    birth_year_before := searchBirthYear birthLeadWords beforeLinkWords ql.data
    birth_year := searchBirthYear birthLeadWords inLinkWords ql.data
    date := searchDate ql.data }

/-- `Pipeline.build_api_url`: base URL plus the data-type path segment. -/
def build_api_url (v : Valves) (f : Filters) : String :=
  v.API_BASE_URL ++ "/" ++ f.data_type

/-! ## Country matching and sample data -/

/-- The field names probed by `Pipeline.mep_matches_country`, in source
order. -/
def possible_fields : List String :=
  ["hasCountryOfRepresentation", "country", "citizenship", "membershipCountry", "representedCountry"]

/-- Python's `v == code` where `code` is a string: true only for an equal
string. -/
def pyEqStr (v : Value) (code : String) : Bool :=
  match v with
  | .str t => t == code
  | _ => false

/-- The dict branch of `mep_matches_country`: `country` sub-key compared by
equality, then the code as a substring of `str(...)` of the `identifier`
and `@id` sub-keys. -/
def dictFieldMatches (fields : List (String × Value)) (code : String) : Bool :=
  (match List.lookup "country" fields with
   | some w => pyEqStr w code
   | none => false) ||
  (match List.lookup "identifier" fields with
   | some w => pyIn code (pyStr w)
   | none => false) ||
  (match List.lookup "@id" fields with
   | some w => pyIn code (pyStr w)
   | none => false)

/-- The list branch of `mep_matches_country`: dict items are checked only
on their `country` sub-key (by equality), string items by substring;
other items are skipped. -/
def listItemMatches (code : String) (item : Value) : Bool :=
  match item with
  | .obj fs =>
    (match List.lookup "country" fs with
     | some w => pyEqStr w code
     | none => false)
  | .str s => pyIn code s
  | _ => false

/-- How one field value is tested against the country code. -/
def fieldValueMatches (v : Value) (code : String) : Bool :=
  match v with
  | .obj fs => dictFieldMatches fs code
  | .str s => (s == code) || pyIn code s
  | .list items => items.any (listItemMatches code)
  | _ => false

/-- `Pipeline.mep_matches_country`: some probed field is present and its
value matches the code. -/
def mep_matches_country (mep : Record) (code : String) : Bool :=
  possible_fields.any (fun f =>
    match List.lookup f mep with
    | some v => fieldValueMatches v code
    | none => false)

/-- One sample MEP record, as in `get_sample_meps_data`. -/
def mkSampleMep (identifier familyName givenName code : String) : Value :=
  .obj [("identifier", .str identifier), ("familyName", .str familyName),
        ("givenName", .str givenName),
        ("hasCountryOfRepresentation", .obj [("@id", .str code)])]

/-- `Pipeline.get_sample_meps_data` (the given names reproduce the
mojibake stored in the source). -/
def get_sample_meps_data : List Value := [
  mkSampleMep "124750" "Bellamy" "FranÃ§ois-Xavier" "FR",
  mkSampleMep "197717" "Glucksmann" "RaphaÃ«l" "FR",
  mkSampleMep "257076" "Aubry" "Manon" "FR",
  mkSampleMep "197123" "Le Pen" "Marine" "FR",
  mkSampleMep "28266" "Lagarde" "Patricia" "FR",
  mkSampleMep "96834" "Mueller" "Hans" "DE",
  mkSampleMep "98765" "Schmidt" "Klaus" "DE",
  mkSampleMep "87654" "Rossi" "Marco" "IT",
  mkSampleMep "76543" "GarcÃ­a" "MarÃ­a" "ES",
  mkSampleMep "65432" "Kowalski" "Jan" "PL"]

/-- `Pipeline.get_sample_meetings_data`. -/
def get_sample_meetings_data : List Value := [
  .obj [("identifier", .str "EP-2024-01-15-PLN"), ("title", .str "Plenary Session January 2024"),
        ("startDate", .str "2024-01-15"), ("endDate", .str "2024-01-18"),
        ("type", .str "Plenary session")],
  .obj [("identifier", .str "EP-2024-01-22-AGRI"), ("title", .str "Committee on Agriculture Meeting"),
        ("startDate", .str "2024-01-22"), ("type", .str "Committee meeting")]]

/-- `Pipeline.get_sample_adopted_texts_data`. -/
def get_sample_adopted_texts_data : List Value := [
  .obj [("identifier", .str "EP-2024-P9-TA-0001"), ("title", .str "European Green Deal Implementation"),
        ("adoptionDate", .str "2024-01-16"), ("type", .str "Resolution"),
        ("subject", .str "Environment")],
  .obj [("identifier", .str "EP-2024-P9-TA-0002"), ("title", .str "Digital Services Act Amendment"),
        ("adoptionDate", .str "2024-01-17"), ("type", .str "Legislative resolution"),
        ("subject", .str "Digital policy")]]

/-- `Pipeline.get_sample_documents_data`. -/
def get_sample_documents_data : List Value := [
  .obj [("identifier", .str "EP-2024-A9-0001"), ("title", .str "Report on EU Budget 2024"),
        ("documentType", .str "Report"), ("author", .str "Committee on Budgets"),
        ("date", .str "2024-01-10")],
  .obj [("identifier", .str "EP-2024-B9-0001"), ("title", .str "Motion for Resolution on Climate Action"),
        ("documentType", .str "Motion"), ("author", .str "Political Group"),
        ("date", .str "2024-01-12")]]

/-- `Pipeline.get_sample_questions_data`. -/
def get_sample_questions_data : List Value := [
  .obj [("identifier", .str "EP-2024-E-000001"), ("title", .str "Question on Migration Policy"),
        ("questionType", .str "Written question"), ("author", .str "MEP Name"),
        ("date", .str "2024-01-08"), ("answered", .bool true)],
  .obj [("identifier", .str "EP-2024-O-000001"), ("title", .str "Oral Question on Energy Transition"),
        ("questionType", .str "Oral question"), ("author", .str "Committee Chair"),
        ("date", .str "2024-01-15"), ("answered", .bool false)]]

/-- `Pipeline.get_sample_data`: dispatch on the data type, falling back to
the MEP samples for anything else (including `plenary-sessions`). -/
def get_sample_data (data_type : String) : List Value :=
  if data_type = "meps" then get_sample_meps_data
  else if data_type = "meetings" then get_sample_meetings_data
  else if data_type = "adopted-texts" then get_sample_adopted_texts_data
  else if data_type = "documents" then get_sample_documents_data
  else if data_type = "questions" then get_sample_questions_data
  else get_sample_meps_data

/-! ## Fetching

The outbound `requests.get` (together with `response.json()`) is modelled
by an oracle: either the request raised a `requests.exceptions.
RequestException` (network error, timeout — and, in current `requests`,
a JSON decoding failure, which is also a `RequestException`), or a
response with a status code and a decoded JSON body came back.  Python
exceptions raised by the subsequent processing are modelled with
`Except PyError`. -/

/-- A Python exception raised during processing (its `str(e)` rendering). -/
structure PyError where
  msg : String
deriving Repr, DecidableEq

/-- The behaviour of the HTTP layer for one query. -/
inductive HttpOutcome where
  | response (status : Int) (body : Value)
  | requestError (msg : String)

/-- `mep_matches_country` applied to an arbitrary element of the fetched
collection, as Python duck typing executes it: dict records run the real
matcher; strings run the `field in mep` substring probe (raising
`TypeError` on the first hit, since `mep[field]` then indexes a string
with a string); lists run a membership probe (likewise raising on a hit);
numbers and booleans are not iterable and raise at once. -/
def matchesCountryValue (item : Value) (code : String) : Except PyError Bool :=
  match item with
  | .obj fs => .ok (mep_matches_country fs code)
  | .str s =>
    if possible_fields.any (fun f => pyIn f s) then
      .error ⟨"string indices must be integers"⟩
    else .ok false
  | .list items =>
    if possible_fields.any (fun f => items.contains (.str f)) then
      .error ⟨"list indices must be integers or slices, not str"⟩
    else .ok false
  | other => .error ⟨"argument of type '" ++ pyTypeName other ++ "' is not iterable"⟩

/-- The list comprehension of `apply_filters`: keep the elements matching
the country code, propagating the first exception. -/
def filterByCountry (code : String) : List Value → Except PyError (List Value)
  | [] => .ok []
  | v :: rest => do
    let b ← matchesCountryValue v code
    let tail ← filterByCountry code rest
    pure (if b then v :: tail else tail)

/-- `Pipeline.apply_filters`: no country filter leaves the data untouched;
with a country filter, the comprehension iterates the collection
(characters of a string, keys of a dict) and builds a list. -/
def apply_filters (parliament_data : Value) (f : Filters) : Except PyError Value :=
  match f.country with
  | none => .ok parliament_data
  | some code =>
    match parliament_data with
    | .list items => do
      let kept ← filterByCountry code items
      pure (.list kept)
    | .str s => do
      let kept ← filterByCountry code (s.data.map (fun c => .str (String.mk [c])))
      pure (.list kept)
    | .obj fields => do
      let kept ← filterByCountry code (fields.map (fun p => .str p.1))
      pure (.list kept)
    | other => .error ⟨"argument of type '" ++ pyTypeName other ++ "' is not iterable"⟩

/-- Python's `l[:n]` on a list of elements, with negative `n` counting
from the end. -/
def pySliceList {α : Type} (n : Int) (l : List α) : List α :=
  if n < 0 then l.take ((l.length : Int) + n).toNat else l.take n.toNat

/-- Python's `v[:n]`: defined on lists and strings, a `TypeError` on
anything else. -/
def pySliceValue (n : Int) (v : Value) : Except PyError Value :=
  match v with
  | .list items => .ok (.list (pySliceList n items))
  | .str s => .ok (.str (String.mk (pySliceList n s.data)))
  | .obj _ => .error ⟨"unhashable type: 'slice'"⟩
  | other => .error ⟨"'" ++ pyTypeName other ++ "' object is not subscriptable"⟩

/-- Python's `len(v)` on the collections the pipeline measures. -/
def pyLen (v : Value) : Except PyError Int :=
  match v with
  | .list items => .ok (items.length : Int)
  | .str s => .ok (s.data.length : Int)
  | .obj fields => .ok (fields.length : Int)
  | other => .error ⟨"object of type '" ++ pyTypeName other ++ "' has no len()"⟩

/-- The dict returned by `fetch_parliament_data`.  Every key except
`success` may be absent; `none` models an absent key. -/
structure FetchDict where
  success : Bool
  count : Option Int := none
  total_available : Option Int := none
  results : Option Value := none
  url : Option String := none
  filters : Option Filters := none
  error : Option String := none

/-- The collection the `try` block goes on to process after the GET
completed with a response: the sample records on a non-200 status,
otherwise `data.get('data', [])` (an `AttributeError` if the JSON body
is not a dict). -/
def parliamentDataOf (f : Filters) (status : Int) (body : Value) : Except PyError Value :=
  if status ≠ 200 then
    pure (Value.list (get_sample_data f.data_type))
  else
    match body with
    | .obj fields => pure (((List.lookup "data" fields).getD (.list [])))
    | other => .error ⟨"'" ++ pyTypeName other ++ "' object has no attribute 'get'"⟩

/-- The filtering, truncation and measuring steps of the `try` block. -/
def processResponse (v : Valves) (f : Filters) (status : Int) (body : Value) :
    Except PyError (Value × Int × Int) := do
  let parliament_data ← parliamentDataOf f status body
  let filtered_data ← apply_filters parliament_data f
  let limited_data ← pySliceValue v.MAX_RESULTS filtered_data
  let count ← pyLen limited_data
  let total ← pyLen filtered_data
  pure (limited_data, count, total)

/-- `Pipeline.fetch_parliament_data`: a `RequestException` from the GET
yields the failure dict that records the attempted URL; any other
exception inside the `try` block is caught by the bare `except Exception`
handler, whose failure dict has no `url` key; otherwise the success dict
is returned. -/
def fetch_parliament_data (v : Valves) (f : Filters) (o : HttpOutcome) : FetchDict :=
  match o with
  | .requestError msg =>
    { success := false, error := some ("API request failed: " ++ msg),
      url := some (build_api_url v f) }
  | .response status body =>
    match processResponse v f status body with
    | .ok (limited_data, count, total) =>
      { success := true, count := some count, total_available := some total,
        results := some limited_data, url := some (build_api_url v f), filters := some f }
    | .error e =>
      { success := false, error := some ("Unexpected error: " ++ e.msg) }

/-! ## Formatting

The string literals of `format_response`/`format_item` that were emoji and
bullets in the intended text are stored in the source as mojibake; the
constants below reproduce those codepoint sequences exactly (e.g. the
"bullet" the file actually contains is the three characters
`U+00E2 U+20AC U+00A2`). -/

/-- The mojibake of the error-banner mark (`U+00E2 U+0152`). -/
def errorMark : String := "âŒ"

/-- The mojibake of the informational mark. -/
def infoMark : String := "â„¹ï¸"

/-- The mojibake icon used for `meps` (and as the fallback icon). -/
def mepsIcon : String := "ðŸ›ï¸"

/-- The mojibake icon used for `documents` and `adopted-texts`. -/
def docIcon : String := "ðŸ“„"

/-- The mojibake icon used for `meetings`. -/
def meetingsIcon : String := "ðŸ—“ï¸"

/-- The mojibake icon used for `questions`. -/
def questionsIcon : String := "â“"

/-- The mojibake bullet prefix of each detail line (three spaces, the
bullet characters, one space). -/
def bulletPrefix : String := "   â€¢ "

/-- `item.get(key, 'N/A')` rendered through an f-string (`str()` of the
value). -/
def getStr (fields : List (String × Value)) (key : String) : String :=
  pyStr ((List.lookup key fields).getD (.str "N/A"))

/-- `Pipeline.format_item`: renders one record according to its data type.
Every branch starts with `item.get(...)`, so a non-dict item raises an
`AttributeError` at once.  On the `meps` branch the default argument of
the outer `.get` (the concatenation of family and given name) is
evaluated eagerly, as Python evaluates call arguments. -/
def format_item (index : Nat) (item : Value) (data_type : String) : Except PyError String := do
  let fields ← match item with
    | .obj fs => pure fs
    | other => .error ⟨"'" ++ pyTypeName other ++ "' object has no attribute 'get'"⟩
  if data_type = "meps" then do
    let famDefault ←
      match (List.lookup "familyName" fields).getD (.str "") with
      | .str s => pure s
      | .list _ => .error ⟨"can only concatenate list (not \"str\") to list"⟩
      | other => .error ⟨"unsupported operand type(s) for +: '" ++ pyTypeName other ++ "' and 'str'"⟩
    let givDefault ←
      match (List.lookup "givenName" fields).getD (.str "") with
      | .str s => pure s
      | other => .error ⟨"can only concatenate str (not \"" ++ pyTypeName other ++ "\") to str"⟩
    let labelVal := (List.lookup "label" fields).getD (.str (famDefault ++ " " ++ givDefault))
    let fullRaw ←
      match labelVal with
      | .str s => pure s
      | other => .error ⟨"'" ++ pyTypeName other ++ "' object has no attribute 'strip'"⟩
    let stripped := pyStrip fullRaw
    let full_name ←
      if stripped = "" ∨ stripped = " " then
        if pyIn "/" (pyStr ((List.lookup "id" fields).getD (.str ""))) then
          match (List.lookup "id" fields).getD (.str "N/A") with
          | .str s => pure (String.mk ((pySplitChar '/' s.data).getLastD []))
          | other => .error ⟨"'" ++ pyTypeName other ++ "' object has no attribute 'split'"⟩
        else pure "N/A"
      else pure stripped
    pure ("**" ++ toString index ++ ". " ++ full_name ++ "**\n" ++
          bulletPrefix ++ "ID: " ++ getStr fields "identifier" ++ "\n" ++
          bulletPrefix ++ "Family Name: " ++ getStr fields "familyName" ++ "\n" ++
          bulletPrefix ++ "Given Name: " ++ getStr fields "givenName" ++ "\n\n")
  else if data_type = "meetings" then
    pure ("**" ++ toString index ++ ". " ++ getStr fields "title" ++ "**\n" ++
          bulletPrefix ++ "ID: " ++ getStr fields "identifier" ++ "\n" ++
          bulletPrefix ++ "Type: " ++ getStr fields "type" ++ "\n" ++
          bulletPrefix ++ "Start Date: " ++ getStr fields "startDate" ++ "\n" ++
          bulletPrefix ++ "End Date: " ++ getStr fields "endDate" ++ "\n\n")
  else if data_type = "adopted-texts" then
    pure ("**" ++ toString index ++ ". " ++ getStr fields "title" ++ "**\n" ++
          bulletPrefix ++ "ID: " ++ getStr fields "identifier" ++ "\n" ++
          bulletPrefix ++ "Type: " ++ getStr fields "type" ++ "\n" ++
          bulletPrefix ++ "Adoption Date: " ++ getStr fields "adoptionDate" ++ "\n" ++
          bulletPrefix ++ "Subject: " ++ getStr fields "subject" ++ "\n\n")
  else if data_type = "documents" then
    pure ("**" ++ toString index ++ ". " ++ getStr fields "title" ++ "**\n" ++
          bulletPrefix ++ "ID: " ++ getStr fields "identifier" ++ "\n" ++
          bulletPrefix ++ "Type: " ++ getStr fields "documentType" ++ "\n" ++
          bulletPrefix ++ "Author: " ++ getStr fields "author" ++ "\n" ++
          bulletPrefix ++ "Date: " ++ getStr fields "date" ++ "\n\n")
  else if data_type = "questions" then
    pure ("**" ++ toString index ++ ". " ++ getStr fields "title" ++ "**\n" ++
          bulletPrefix ++ "ID: " ++ getStr fields "identifier" ++ "\n" ++
          bulletPrefix ++ "Type: " ++ getStr fields "questionType" ++ "\n" ++
          bulletPrefix ++ "Author: " ++ getStr fields "author" ++ "\n" ++
          bulletPrefix ++ "Date: " ++ getStr fields "date" ++ "\n" ++
          bulletPrefix ++ "Answered: " ++
            (match List.lookup "answered" fields with
             | some w => if pyTruthy w then "Yes" else "No"
             | none => "No") ++ "\n\n")
  else
    pure ("**" ++ toString index ++ ". " ++
          pyStr ((List.lookup "title" fields).getD
            ((List.lookup "identifier" fields).getD (.str "N/A"))) ++ "**\n\n")

/-- The formatting loop of `format_response`: `enumerate(results, 1)`. -/
def formatItems (data_type : String) : Nat → List Value → Except PyError String
  | _, [] => .ok ""
  | i, item :: rest => do
    let s ← format_item i item data_type
    let tail ← formatItems data_type (i + 1) rest
    pure (s ++ tail)

/-- Python iteration over the `results` value: a list yields its items, a
string its characters, a dict its keys; numbers are not iterable. -/
def iterateValue (v : Value) : Except PyError (List Value) :=
  match v with
  | .list items => .ok items
  | .str s => .ok (s.data.map (fun c => .str (String.mk [c])))
  | .obj fields => .ok (fields.map (fun p => .str p.1))
  | other => .error ⟨"'" ++ pyTypeName other ++ "' object is not iterable"⟩

/-- Indexing `data[key]`: a `KeyError` when the key is absent. -/
def keyLookup {α : Type} (o : Option α) (key : String) : Except PyError α :=
  match o with
  | some a => .ok a
  | none => .error ⟨"KeyError: '" ++ key ++ "'"⟩

/-- The truncation-notice chunk appended by `format_response` when the
returned count reaches `MAX_RESULTS`; the `total_available` tail is added
only when that key is present and exceeds the count. -/
def truncationNotice (v : Valves) (count : Int) (total : Option Int) : String :=
  if count ≥ v.MAX_RESULTS then
    "*Showing first " ++ toString v.MAX_RESULTS ++ " results. " ++
    (match total with
     | some t => if t > count then "Total available: " ++ toString t ++ "*\n\n" else ""
     | none => "")
  else ""

/-- `Pipeline.format_response`: error banner on failure, "no results"
message on a zero count, otherwise header, numbered items, the truncation
notice and the footer. -/
def format_response (v : Valves) (query : String) (data : FetchDict) :
    Except PyError String := do
  if data.success = false then do
    let err ← keyLookup data.error "error"
    pure (errorMark ++ " **Error fetching European Parliament data**\n\n" ++ err)
  else do
    let filt ← keyLookup data.filters "filters"
    let data_type := filt.data_type
    let data_type_name := (List.lookup data_type data_types).getD "Data"
    let count ← keyLookup data.count "count"
    if count = 0 then
      pure (infoMark ++ " **No " ++ pyLower data_type_name ++ " found for your query:** " ++ query)
    else do
      let icon :=
        if data_type = "meps" then mepsIcon
        else if data_type = "documents" ∨ data_type = "adopted-texts" then docIcon
        else if data_type = "meetings" then meetingsIcon
        else if data_type = "questions" then questionsIcon
        else mepsIcon
      let resultsVal ← keyLookup data.results "results"
      let items ← iterateValue resultsVal
      let bodyTxt ← formatItems data_type 1 items
      pure (icon ++ " **European Parliament - " ++ data_type_name ++ "**\n\n" ++
            "**Query:** " ++ query ++ "\n" ++
            "**Results:** " ++ toString count ++ " items found\n\n" ++
            bodyTxt ++
            truncationNotice v count data.total_available ++
            "---\n*Data from: European Parliament Open Data API*\n" ++
            "*API Endpoint: " ++ (data.url.getD "N/A") ++ "*")

/-- `Pipeline.pipe`: the title-generation suppression check (whose second
arm compares a capitalised literal against the lowered message and can
never fire), then parse, fetch and format.  `model_id`, `messages` and
`body` are accepted and ignored, as in the source. -/
def pipe (v : Valves) (user_message _model_id : String)
    (_messages : List (String × String)) (_body : List (String × Value))
    (o : HttpOutcome) : Except PyError String :=
  if pyIn "broad tags categorizing" (pyLower user_message) ∨
     pyIn "Create a concise" (pyLower user_message) then
    .ok "(title generation disabled for europarl pipeline)"
  else
    format_response v user_message (fetch_parliament_data v (parse_query user_message) o)

/-! ## Auxiliary definitions used by the verification

`filteredSampleRecords` restates, as a plain `List.filter`, what the
fallback path of `fetch_parliament_data` computes; `spec_matches_country`
transcribes the specification's description of the country matcher (to be
compared with the source's `mep_matches_country`); the `renderableItem`
family delimits the records `format_item` can render without raising. -/

/-- Whether a value is a dict. -/
def isObjValue : Value → Bool
  | .obj _ => true
  | _ => false

/-- The country predicate the filtering applies to one sample record. -/
def sampleKeep (code : String) (r : Value) : Bool :=
  match r with
  | .obj fs => mep_matches_country fs code
  | _ => false

/-- The sample records for the resolved data type after client-side
country filtering (the claim's "records drawn from the static sample
records"). -/
def filteredSampleRecords (f : Filters) : List Value :=
  match f.country with
  | none => get_sample_data f.data_type
  | some code => (get_sample_data f.data_type).filter (sampleKeep code)

/-- The specification's reading of the country matcher on one field
value: the code is "contained" directly or as a substring when the field
is a string, nested under a `country`, `identifier` or `@id` sub-key when
the field is a mapping, or inside a list of such structures. -/
def specFieldValueMatches (code : String) (v : Value) : Bool :=
  match v with
  | .str s => (s == code) || pyIn code s
  | .obj fs =>
    ["country", "identifier", "@id"].any (fun k =>
      match List.lookup k fs with
      | some w => pyIn code (pyStr w)
      | none => false)
  | .list items =>
    items.any (fun it =>
      match it with
      | .str s => pyIn code s
      | .obj fs =>
        ["country", "identifier", "@id"].any (fun k =>
          match List.lookup k fs with
          | some w => pyIn code (pyStr w)
          | none => false)
      | _ => false)
  | _ => false

/-- The specification's country matcher over a whole record. -/
def spec_matches_country (mep : Record) (code : String) : Bool :=
  possible_fields.any (fun f =>
    match List.lookup f mep with
    | some v => specFieldValueMatches code v
    | none => false)

/-- The source's behaviour on one field value, stated declaratively: a
string field matches by equality or substring; a mapping field matches on
an equal `country` sub-key or on the code occurring in `str()` of its
`identifier` or `@id` sub-key; a list field matches on a dict item with
an equal `country` sub-key or a string item containing the code. -/
def AmendedValueMatches (v : Value) (code : String) : Prop :=
  (∃ s, v = .str s ∧ (s = code ∨ pyIn code s = true)) ∨
  (∃ fs, v = .obj fs ∧
    ((∃ w, List.lookup "country" fs = some w ∧ w = .str code) ∨
     (∃ w, List.lookup "identifier" fs = some w ∧ pyIn code (pyStr w) = true) ∨
     (∃ w, List.lookup "@id" fs = some w ∧ pyIn code (pyStr w) = true))) ∨
  (∃ items, v = .list items ∧ ∃ it ∈ items,
    ((∃ fs, it = .obj fs ∧ ∃ w, List.lookup "country" fs = some w ∧ w = .str code) ∨
     (∃ s, it = .str s ∧ pyIn code s = true)))

/-- Whether the given key of a record is absent or bound to a string:
what the `meps` template needs to render without raising. -/
def mepSafeField (fs : List (String × Value)) (k : String) : Bool :=
  match List.lookup k fs with
  | none => true
  | some (.str _) => true
  | some _ => false

/-- Records `format_item` renders without raising: dicts, whose
name-related fields are strings (or absent) when the data type is
`meps`. -/
def renderableItem (data_type : String) (item : Value) : Bool :=
  match item with
  | .obj fs =>
    if data_type = "meps" then
      mepSafeField fs "label" && mepSafeField fs "familyName" &&
      mepSafeField fs "givenName" && mepSafeField fs "id"
    else true
  | _ => false

/-- HTTP behaviours under which the pipeline is shown to return a
string: a transport exception, a non-200 response, or a 200 response
whose JSON body is a dict whose `data` entry (defaulting to `[]`) is a
list of renderable records. -/
def SafeOutcome (f : Filters) (o : HttpOutcome) : Prop :=
  match o with
  | .requestError _ => True
  | .response status body =>
    status ≠ 200 ∨
    ∃ fields items, body = .obj fields ∧
      (List.lookup "data" fields).getD (.list []) = .list items ∧
      ∀ it ∈ items, renderableItem f.data_type it = true

/-! ## Helper lemmas -/

@[simp]
theorem except_ok_bind {α β : Type} (a : α) (g : α → Except PyError β) :
    (Except.ok a >>= g) = g a := rfl

@[simp]
theorem except_error_bind {α β : Type} (e : PyError) (g : α → Except PyError β) :
    ((Except.error e : Except PyError α) >>= g) = .error e := rfl

/-- On a non-200 status the `try` block processes the sample records and
never consults the body. -/
theorem processResponse_non200 (v : Valves) (f : Filters) (status : Int) (body : Value)
    (h : status ≠ 200) :
    processResponse v f status body = (do
      let filtered ← apply_filters (.list (get_sample_data f.data_type)) f
      let limited ← pySliceValue v.MAX_RESULTS filtered
      let count ← pyLen limited
      let total ← pyLen filtered
      pure (limited, count, total)) := by
  unfold processResponse parliamentDataOf
  rw [if_pos h]
  rfl

/-- The filtering comprehension never raises on a list of dicts, and
computes a plain `List.filter`. -/
theorem filterByCountry_objs (code : String) (l : List Value)
    (h : ∀ x ∈ l, isObjValue x = true) :
    filterByCountry code l = .ok (l.filter (sampleKeep code)) := by
  induction l with
  | nil => rfl
  | cons v rest ih =>
    have hv := h v (by simp)
    have hrest : ∀ x ∈ rest, isObjValue x = true := fun x hx => h x (by simp [hx])
    cases v with
    | obj fs =>
      simp only [filterByCountry, matchesCountryValue, except_ok_bind, ih hrest,
        List.filter_cons, sampleKeep]
      split <;> rfl
    | str s => simp [isObjValue] at hv
    | int n => simp [isObjValue] at hv
    | bool b => simp [isObjValue] at hv
    | list items => simp [isObjValue] at hv

/-- Every sample record of every data type is a dict. -/
theorem get_sample_data_objs (dt : String) :
    (get_sample_data dt).all isObjValue = true := by
  unfold get_sample_data
  split
  · rfl
  split
  · rfl
  split
  · rfl
  split
  · rfl
  split
  · rfl
  · rfl

/-- Client-side filtering of the sample records never raises and yields
`filteredSampleRecords`. -/
theorem apply_filters_samples (f : Filters) :
    apply_filters (.list (get_sample_data f.data_type)) f =
      .ok (.list (filteredSampleRecords f)) := by
  unfold apply_filters filteredSampleRecords
  cases f.country with
  | none => rfl
  | some code =>
    simp only [filterByCountry_objs code _
      (List.all_eq_true.mp (get_sample_data_objs f.data_type)), except_ok_bind]
    rfl

/-- The full shape of the fetch result on a non-200 response: a success
dict built from the filtered, truncated sample records. -/
theorem fetch_non200 (v : Valves) (f : Filters) (status : Int) (body : Value)
    (h : status ≠ 200) :
    fetch_parliament_data v f (.response status body) =
      { success := true,
        count := some ((pySliceList v.MAX_RESULTS (filteredSampleRecords f)).length : Int),
        total_available := some ((filteredSampleRecords f).length : Int),
        results := some (.list (pySliceList v.MAX_RESULTS (filteredSampleRecords f))),
        url := some (build_api_url v f),
        filters := some f } := by
  simp only [fetch_parliament_data]
  rw [processResponse_non200 v f status body h]
  simp only [apply_filters_samples f, except_ok_bind]
  rfl

/-! ## Claims -/

set_option maxRecDepth 100000 in
/-- **C1.** For the query `"German MEPs born after 1980"`, `parse_query`
returns exactly the filters `{data_type: meps, country: DE,
birth_year_after: 1980}`; and on any non-200 response the pipeline's
fetch keeps exactly the two sample MEPs represented for `DE` (Mueller and
Schmidt), the formatted text renders their family names, given names and
identifiers, and carries no truncation notice since the count 2 is below
`MAX_RESULTS = 10`. -/
theorem c1_german_meps_end_to_end :
    parse_query "German MEPs born after 1980" =
      { data_type := "meps", country := some "DE", birth_year_after := some 1980 } ∧
    ∀ (status : Int) (body : Value), status ≠ 200 →
      (fetch_parliament_data defaultValves (parse_query "German MEPs born after 1980")
          (.response status body)).results =
        some (.list [mkSampleMep "96834" "Mueller" "Hans" "DE",
                     mkSampleMep "98765" "Schmidt" "Klaus" "DE"]) ∧
      (fetch_parliament_data defaultValves (parse_query "German MEPs born after 1980")
          (.response status body)).count = some 2 ∧
      (2 : Int) < defaultValves.MAX_RESULTS ∧
      ∃ out, format_response defaultValves "German MEPs born after 1980"
          (fetch_parliament_data defaultValves (parse_query "German MEPs born after 1980")
            (.response status body)) = .ok out ∧
        pyIn "Family Name: Mueller" out = true ∧
        pyIn "Given Name: Hans" out = true ∧
        pyIn "ID: 96834" out = true ∧
        pyIn "Family Name: Schmidt" out = true ∧
        pyIn "Given Name: Klaus" out = true ∧
        pyIn "ID: 98765" out = true ∧
        pyIn "**Results:** 2 items found" out = true ∧
        pyIn "*Showing first" out = false := by
  refine ⟨by decide, ?_⟩
  intro status body h
  rw [fetch_non200 _ _ _ _ h]
  refine ⟨rfl, rfl, by decide, ?_⟩
  exact ⟨_, rfl, by decide, by decide, by decide, by decide, by decide, by decide,
    by decide, by decide⟩

/-- Witness for C1 at the concrete response status 404. -/
theorem c1_witness :
    (fetch_parliament_data defaultValves (parse_query "German MEPs born after 1980")
      (.response 404 (.obj []))).count = some 2 :=
  (c1_german_meps_end_to_end.2 404 (.obj []) (by decide)).2.1

/-- **C2.** For every filter set and every non-200 response, the fetch
result is a success whose records are the sample records of the resolved
data type after client-side country filtering and truncation, and whose
`url` field is the attempted request URL. -/
theorem c2_non200_uses_samples (v : Valves) (f : Filters) (status : Int) (body : Value)
    (h : status ≠ 200) :
    (fetch_parliament_data v f (.response status body)).success = true ∧
    (fetch_parliament_data v f (.response status body)).results =
      some (.list (pySliceList v.MAX_RESULTS (filteredSampleRecords f))) ∧
    (fetch_parliament_data v f (.response status body)).url = some (build_api_url v f) := by
  rw [fetch_non200 v f status body h]
  exact ⟨rfl, rfl, rfl⟩

/-- Witness for C2 at a concrete 500 response. -/
theorem c2_witness :
    (fetch_parliament_data defaultValves { data_type := "meetings" }
        (.response 500 (.int 0))).success = true ∧
    (fetch_parliament_data defaultValves { data_type := "meetings" }
        (.response 500 (.int 0))).results =
      some (.list (pySliceList defaultValves.MAX_RESULTS
        (filteredSampleRecords { data_type := "meetings" }))) ∧
    (fetch_parliament_data defaultValves { data_type := "meetings" }
        (.response 500 (.int 0))).url =
      some (build_api_url defaultValves { data_type := "meetings" }) :=
  c2_non200_uses_samples defaultValves { data_type := "meetings" } 500 (.int 0) (by decide)

/-- **C3 counterexample.** A 200 response whose JSON body is a bare
string makes `data.get('data', [])` raise an `AttributeError`; the bare
`except Exception` handler then returns a failure dict with `success:
false`, a populated error string and no `results` key — but, contrary to
the claim, also **no `url` key**. -/
theorem c3_counterexample :
    (fetch_parliament_data defaultValves { data_type := "meps" }
        (.response 200 (.str "oops"))).success = false ∧
    (fetch_parliament_data defaultValves { data_type := "meps" }
        (.response 200 (.str "oops"))).error =
      some "Unexpected error: 'str' object has no attribute 'get'" ∧
    (fetch_parliament_data defaultValves { data_type := "meps" }
        (.response 200 (.str "oops"))).results = none ∧
    (fetch_parliament_data defaultValves { data_type := "meps" }
        (.response 200 (.str "oops"))).url = none :=
  ⟨rfl, rfl, rfl, rfl⟩

/-- **C3 amended.** An exception always yields `success: false` with a
populated error string and no `results` key; the `url` key is present
exactly when the exception is a `RequestException` raised by the GET, and
absent when the exception arises in a subsequent processing step (the
bare `except Exception` handler omits it). -/
theorem c3_amended (v : Valves) (f : Filters) :
    (∀ msg, (fetch_parliament_data v f (.requestError msg)).success = false ∧
      (fetch_parliament_data v f (.requestError msg)).error =
        some ("API request failed: " ++ msg) ∧
      (fetch_parliament_data v f (.requestError msg)).error ≠ some "" ∧
      (fetch_parliament_data v f (.requestError msg)).url = some (build_api_url v f) ∧
      (fetch_parliament_data v f (.requestError msg)).results = none) ∧
    (∀ status body e, processResponse v f status body = .error e →
      (fetch_parliament_data v f (.response status body)).success = false ∧
      (fetch_parliament_data v f (.response status body)).error =
        some ("Unexpected error: " ++ e.msg) ∧
      (fetch_parliament_data v f (.response status body)).url = none ∧
      (fetch_parliament_data v f (.response status body)).results = none) := by
  constructor
  · intro msg
    refine ⟨rfl, rfl, ?_, rfl, rfl⟩
    intro hc
    have h2 := congrArg String.length (Option.some.inj hc)
    rw [String.length_append] at h2
    have h3 : "API request failed: ".length = 20 := rfl
    have h4 : "".length = 0 := rfl
    omega
  · intro status body e he
    simp [fetch_parliament_data, he]

/-- Witness for C3 at a 200 response carrying a JSON number. -/
theorem c3_amended_witness :
    (fetch_parliament_data defaultValves { data_type := "meps" }
      (.response 200 (.int 7))).url = none :=
  ((c3_amended defaultValves { data_type := "meps" }).2 200 (.int 7)
    ⟨"'int' object has no attribute 'get'"⟩ rfl).2.2.1

/-- **C4 counterexample.** A transport-level exception does **not**
substitute sample records: the fetch returns a failure dict with
`success: false`, no `results` key, and the error surfaced. -/
theorem c4_counterexample :
    (fetch_parliament_data defaultValves { data_type := "meps" }
        (.requestError "Connection timed out")).success = false ∧
    (fetch_parliament_data defaultValves { data_type := "meps" }
        (.requestError "Connection timed out")).results = none ∧
    (fetch_parliament_data defaultValves { data_type := "meps" }
        (.requestError "Connection timed out")).error =
      some "API request failed: Connection timed out" :=
  ⟨rfl, rfl, rfl⟩

/-- **C4 amended.** Only a non-200 status code triggers the silent
sample-data substitution; a transport-level exception is surfaced as a
`success: false` error result with no results. -/
theorem c4_amended (v : Valves) (f : Filters) :
    (∀ msg, (fetch_parliament_data v f (.requestError msg)).success = false ∧
      (fetch_parliament_data v f (.requestError msg)).results = none ∧
      ((fetch_parliament_data v f (.requestError msg)).error).isSome = true) ∧
    (∀ status body, status ≠ 200 →
      (fetch_parliament_data v f (.response status body)).success = true ∧
      (fetch_parliament_data v f (.response status body)).results =
        some (.list (pySliceList v.MAX_RESULTS (filteredSampleRecords f))) ∧
      (fetch_parliament_data v f (.response status body)).error = none) := by
  constructor
  · intro msg
    exact ⟨rfl, rfl, rfl⟩
  · intro status body h
    rw [fetch_non200 v f status body h]
    exact ⟨rfl, rfl, rfl⟩

/-- Witness for C4 at a concrete transport error and a concrete 503
response. -/
theorem c4_amended_witness :
    (fetch_parliament_data defaultValves { data_type := "documents" }
      (.requestError "timeout")).success = false ∧
    (fetch_parliament_data defaultValves { data_type := "documents" }
      (.response 503 (.obj []))).success = true :=
  ⟨((c4_amended defaultValves { data_type := "documents" }).1 "timeout").1,
   ((c4_amended defaultValves { data_type := "documents" }).2 503 (.obj []) (by decide)).1⟩


/-- **C5 counterexample.** The source stores the French alternatives of
the birth-year regexes as mojibake (`n` followed by `U+00C3 U+00A9`, and
`apr` followed by `U+00C3 U+00A8` then `s`), and `U+00C3` is an upper-case
letter that cannot survive `query.lower()`; hence the query
`"né après 1980"` — which the claim says sets `birth_year_after = 1980` —
sets no birth-year key at all. -/
theorem c5_counterexample :
    (parse_query "n\u00E9 apr\u00E8s 1980").birth_year_after = none ∧
    (parse_query "n\u00E9 apr\u00E8s 1980").birth_year_before = none ∧
    (parse_query "n\u00E9 apr\u00E8s 1980").birth_year = none := by
  refine ⟨by decide, by decide, by decide⟩

/-- **C5 amended.** The patterns behave as claimed for the alternatives
stored in ASCII (`born`/`naissance` with `after`/`before`/`in`/`en`):
each match sets exactly its own key, several matches set several keys,
and the accented French forms `né`/`après`/`avant` never match because
the pattern encodes them as mojibake containing an upper-case character
that a lowered query cannot contain. -/
theorem c5_amended :
    parse_query "born after 1980" = { data_type := "meps", birth_year_after := some 1980 } ∧
    parse_query "born before 1975" = { data_type := "meps", birth_year_before := some 1975 } ∧
    parse_query "born in 1960" = { data_type := "meps", birth_year := some 1960 } ∧
    parse_query "naissance en 1950" = { data_type := "meps", birth_year := some 1950 } ∧
    parse_query "naissance after 1990" = { data_type := "meps", birth_year_after := some 1990 } ∧
    parse_query "born in 1980 and born after 1975" =
      { data_type := "meps", birth_year_after := some 1975, birth_year := some 1980 } ∧
    (parse_query "n\u00E9 apr\u00E8s 1985").birth_year_after = none ∧
    (parse_query "n\u00E9 avant 1985").birth_year_before = none ∧
    (parse_query "n\u00E9 en 1985").birth_year = none := by
  refine ⟨by decide, by decide, by decide, by decide, by decide, by decide, by decide,
    by decide, by decide⟩

/-- **C6 counterexample.** The mapping key `franÃ§ais` (the mojibake the
source stores, containing the upper-case `U+00C3`) maps to `FR` and
occurs verbatim in the query `"franÃ§ais"`, yet `parse_query` sets no
country: lowering the query turns `U+00C3` into `U+00E3`, so the key can
never be found. -/
theorem c6_counterexample :
    ("fran\u00C3\u00A7ais", "FR") ∈ country_mapping ∧
    pyIn "fran\u00C3\u00A7ais" "fran\u00C3\u00A7ais" = true ∧
    (parse_query "fran\u00C3\u00A7ais").country = none := by
  refine ⟨by decide, by decide, by decide⟩

/-- **C6 amended.** `country` is always the code of the first mapping
entry (in literal order) whose key occurs in the lowered query — so a
synonym that contains no upper-case character is found case-insensitively,
the winner under several matches is the first hit in mapping order (not
first occurrence in the text), and the five mojibake keys can never
match. -/
theorem c6_amended :
    (∀ q : String, (parse_query q).country =
      (country_mapping.find? (fun p => pyIn p.1 (pyLower q))).map Prod.snd) ∧
    (∀ q : String, (∃ p ∈ country_mapping, pyIn p.1 (pyLower q) = true) →
      ((parse_query q).country).isSome = true) ∧
    (parse_query "italian and german meps").country = some "DE" ∧
    (parse_query "GERMAN meps").country = some "DE" := by
  refine ⟨fun q => rfl, ?_, by decide, by decide⟩
  intro q hq
  have h1 : (country_mapping.find? (fun p => pyIn p.1 (pyLower q))).isSome = true := by
    rw [List.find?_isSome]
    obtain ⟨p, hp, hin⟩ := hq
    exact ⟨p, hp, hin⟩
  have h2 : (parse_query q).country =
      (country_mapping.find? (fun p => pyIn p.1 (pyLower q))).map Prod.snd := rfl
  rw [h2]
  obtain ⟨p, hp⟩ := Option.isSome_iff_exists.mp h1
  rw [hp]
  rfl

/-- Witness for C6 at the concrete query `"german"`. -/
theorem c6_amended_witness :
    ((parse_query "german").country).isSome = true :=
  c6_amended.2.1 "german" ⟨("german", "DE"), by decide, by decide⟩



/-- `pyEqStr` holds exactly on the equal string value. -/
theorem pyEqStr_iff (w : Value) (code : String) :
    pyEqStr w code = true ↔ w = .str code := by
  cases w <;> simp [pyEqStr]

/-- The item test of the list branch, stated declaratively. -/
theorem listItemMatches_iff (code : String) (it : Value) :
    listItemMatches code it = true ↔
      ((∃ fs, it = .obj fs ∧ ∃ w, List.lookup "country" fs = some w ∧ w = .str code) ∨
       (∃ s, it = .str s ∧ pyIn code s = true)) := by
  cases it with
  | obj fs =>
    cases hc : List.lookup "country" fs <;>
      simp [listItemMatches, hc, pyEqStr_iff]
  | str s => simp [listItemMatches]
  | int n => simp [listItemMatches]
  | bool b => simp [listItemMatches]
  | list l => simp [listItemMatches]

/-- The per-field matching of `mep_matches_country`, stated
declaratively. -/
theorem fieldValueMatches_iff (v : Value) (code : String) :
    fieldValueMatches v code = true ↔ AmendedValueMatches v code := by
  cases v with
  | str s => simp [fieldValueMatches, AmendedValueMatches]
  | obj fs =>
    cases hc : List.lookup "country" fs <;>
      cases hi : List.lookup "identifier" fs <;>
        cases ha : List.lookup "@id" fs <;>
          simp [fieldValueMatches, dictFieldMatches, AmendedValueMatches, hc, hi, ha, pyEqStr_iff,
            or_assoc]
  | list items =>
    simp only [fieldValueMatches, AmendedValueMatches, List.any_eq_true]
    constructor
    · rintro ⟨it, hit, hm⟩
      exact .inr (.inr ⟨items, rfl, it, hit, (listItemMatches_iff code it).mp hm⟩)
    · rintro (⟨s, hs, _⟩ | ⟨fs, hfs, _⟩ | ⟨items', hi, it, hit, hm⟩)
      · exact absurd hs (by simp)
      · exact absurd hfs (by simp)
      · cases hi
        exact ⟨it, hit, (listItemMatches_iff code it).mpr hm⟩
  | int n => simp [fieldValueMatches, AmendedValueMatches]
  | bool b => simp [fieldValueMatches, AmendedValueMatches]

/-- **C7 counterexample.** The record `{'country': [{'@id': 'DE'}]}`
matches the specification's description (the code `DE` sits under an
`@id` sub-key of a mapping inside a list), but `mep_matches_country`
returns false: for dict items inside lists the source checks only the
`country` sub-key, and by equality. -/
theorem c7_counterexample :
    spec_matches_country [("country", .list [.obj [("@id", .str "DE")]])] "DE" = true ∧
    mep_matches_country [("country", .list [.obj [("@id", .str "DE")]])] "DE" = false := by
  refine ⟨by decide, by decide⟩

/-- **C7 amended.** `mep_matches_country record code` is true exactly
when one of the five probed fields is present and matches as the source
does: a string field by equality or substring; a mapping field by an
equal `country` sub-key, or by the code occurring in `str()` of its
`identifier` or `@id` sub-key; a list field by a dict item with an equal
`country` sub-key or a string item containing the code. -/
theorem c7_amended (mep : Record) (code : String) :
    mep_matches_country mep code = true ↔
      ∃ f ∈ possible_fields, ∃ v, List.lookup f mep = some v ∧ AmendedValueMatches v code := by
  unfold mep_matches_country
  rw [List.any_eq_true]
  constructor
  · rintro ⟨f, hf, hm⟩
    cases hl : List.lookup f mep with
    | none => rw [hl] at hm; exact absurd hm (by simp)
    | some v =>
      rw [hl] at hm
      exact ⟨f, hf, v, hl, (fieldValueMatches_iff v code).mp hm⟩
  · rintro ⟨f, hf, v, hl, hm⟩
    refine ⟨f, hf, ?_⟩
    rw [hl]
    exact (fieldValueMatches_iff v code).mpr hm



/-- **C9 counterexample.** For the `questions` data type, a record
missing the expected `answered` field renders `Answered: No` — not the
claimed literal `N/A` placeholder. -/
theorem c9_counterexample :
    format_item 1 (.obj []) "questions" =
      .ok ("**1. N/A**\n" ++ bulletPrefix ++ "ID: N/A\n" ++ bulletPrefix ++ "Type: N/A\n" ++
           bulletPrefix ++ "Author: N/A\n" ++ bulletPrefix ++ "Date: N/A\n" ++
           bulletPrefix ++ "Answered: No\n\n") ∧
    pyIn "Answered: No" ("**1. N/A**\n" ++ bulletPrefix ++ "ID: N/A\n" ++ bulletPrefix ++
      "Type: N/A\n" ++ bulletPrefix ++ "Author: N/A\n" ++ bulletPrefix ++ "Date: N/A\n" ++
      bulletPrefix ++ "Answered: No\n\n") = true ∧
    pyIn "Answered: N/A" ("**1. N/A**\n" ++ bulletPrefix ++ "ID: N/A\n" ++ bulletPrefix ++
      "Type: N/A\n" ++ bulletPrefix ++ "Author: N/A\n" ++ bulletPrefix ++ "Date: N/A\n" ++
      bulletPrefix ++ "Answered: No\n\n") = false := by
  refine ⟨rfl, by decide, by decide⟩




/-- A prefix of `q` is a prefix of `q ++ r`. -/
theorem isPrefixOf_append_of (p q r : List Char) (h : p.isPrefixOf q = true) :
    p.isPrefixOf (q ++ r) = true := by
  induction p generalizing q with
  | nil => simp [List.isPrefixOf]
  | cons c p ih =>
    cases q with
    | nil => simp [List.isPrefixOf] at h
    | cons d q =>
      simp only [List.isPrefixOf, Bool.and_eq_true] at h
      simp only [List.cons_append, List.isPrefixOf, Bool.and_eq_true]
      exact ⟨h.1, ih q h.2⟩

/-- A prefix occurs as a contiguous run. -/
theorem containsRun_of_isPrefixOf (p l : List Char) (h : p.isPrefixOf l = true) :
    listContainsRun p l = true := by
  cases l with
  | nil =>
    cases p with
    | nil => rfl
    | cons c p => simp [List.isPrefixOf] at h
  | cons c rest => simp [listContainsRun, h]

/-- A run inside `l₂` is a run inside `l₁ ++ l₂`. -/
theorem containsRun_append_right (p l₁ l₂ : List Char) (h : listContainsRun p l₂ = true) :
    listContainsRun p (l₁ ++ l₂) = true := by
  induction l₁ with
  | nil => exact h
  | cons c l₁ ih => simp [listContainsRun, ih]

/-- Substring containment is preserved by prepending. -/
theorem pyIn_append_right (n a b : String) (h : pyIn n b = true) :
    pyIn n (a ++ b) = true :=
  containsRun_append_right n.data a.data b.data h

/-- A string prefix is a substring. -/
theorem pyIn_of_isPrefixOf (n b : String) (h : n.data.isPrefixOf b.data = true) :
    pyIn n b = true :=
  containsRun_of_isPrefixOf n.data b.data h

/-- Inversion of a successful `processResponse`: the limited collection
is the truncation of some filtered collection, and the two counts are
their lengths. -/
theorem processResponse_ok_shape (v : Valves) (f : Filters) (status : Int) (body : Value)
    (l : Value) (c t : Int) (h : processResponse v f status body = .ok (l, c, t)) :
    ∃ filtered, pySliceValue v.MAX_RESULTS filtered = .ok l ∧
      pyLen l = .ok c ∧ pyLen filtered = .ok t := by
  unfold processResponse at h
  cases h1 : parliamentDataOf f status body with
  | error e => rw [h1] at h; simp at h
  | ok parliament =>
    rw [h1] at h
    simp only [except_ok_bind] at h
    cases h2 : apply_filters parliament f with
    | error e => rw [h2] at h; simp at h
    | ok filtered =>
      rw [h2] at h
      simp only [except_ok_bind] at h
      cases h3 : pySliceValue v.MAX_RESULTS filtered with
      | error e => rw [h3] at h; simp at h
      | ok limited =>
        rw [h3] at h
        simp only [except_ok_bind] at h
        cases h4 : pyLen limited with
        | error e => rw [h4] at h; simp at h
        | ok c' =>
          rw [h4] at h
          simp only [except_ok_bind] at h
          cases h5 : pyLen filtered with
          | error e => rw [h5] at h; simp at h
          | ok t' =>
            rw [h5] at h
            simp only [except_ok_bind] at h
            have h6 : limited = l ∧ c' = c ∧ t' = t := by
              cases h
              exact ⟨rfl, rfl, rfl⟩
            obtain ⟨rfl, rfl, rfl⟩ := h6
            exact ⟨filtered, h3, h4, h5⟩

/-- Inversion of a successful fetch: its `count` and `total_available`
are the lengths of the truncated and filtered collections. -/
theorem fetch_success_inv (v : Valves) (f : Filters) (o : HttpOutcome)
    (h : (fetch_parliament_data v f o).success = true) :
    ∃ filtered limited c t, pySliceValue v.MAX_RESULTS filtered = .ok limited ∧
      pyLen limited = .ok c ∧ pyLen filtered = .ok t ∧
      (fetch_parliament_data v f o).count = some c ∧
      (fetch_parliament_data v f o).total_available = some t := by
  cases o with
  | requestError msg => simp [fetch_parliament_data] at h
  | response status body =>
    cases hp : processResponse v f status body with
    | error e => simp [fetch_parliament_data, hp] at h
    | ok trip =>
      obtain ⟨l, c, t⟩ := trip
      obtain ⟨filtered, h1, h2, h3⟩ := processResponse_ok_shape v f status body l c t hp
      exact ⟨filtered, l, c, t, h1, h2, h3,
        by simp [fetch_parliament_data, hp], by simp [fetch_parliament_data, hp]⟩

/-- The returned count is the minimum of the pre-truncation count and
`MAX_RESULTS` (for a non-negative cap). -/
theorem sliceValue_count_min (MAX : Int) (h0 : 0 ≤ MAX) (filtered limited : Value)
    (c t : Int) (hs : pySliceValue MAX filtered = .ok limited)
    (hc : pyLen limited = .ok c) (ht : pyLen filtered = .ok t) :
    c = min t MAX := by
  have hnotneg : ¬ MAX < 0 := by omega
  have htn : (MAX.toNat : Int) = MAX := Int.toNat_of_nonneg h0
  cases filtered with
  | list items =>
    simp only [pySliceValue, Except.ok.injEq] at hs
    subst hs
    simp only [pyLen, Except.ok.injEq] at hc ht
    rw [pySliceList, if_neg hnotneg, List.length_take] at hc
    subst hc
    subst ht
    simp only [Nat.cast_min]
    omega
  | str str =>
    simp only [pySliceValue, Except.ok.injEq] at hs
    subst hs
    simp only [pyLen, Except.ok.injEq] at hc ht
    rw [pySliceList, if_neg hnotneg, List.length_take] at hc
    subst hc
    subst ht
    simp only [Nat.cast_min]
    omega
  | obj fields => simp [pySliceValue] at hs
  | int n => simp [pySliceValue] at hs
  | bool b => simp [pySliceValue] at hs




/-- **C8.** On the success path (with a positive cap), the truncation
notice chunk appended by `format_response` is nonempty exactly when the
returned count equals `MAX_RESULTS`; and whenever the pre-truncation
filtered count (`total_available`) exceeds `MAX_RESULTS`, the notice
mentions `Total available:`. -/
theorem c8_truncation_notice (v : Valves) (f : Filters) (o : HttpOutcome) (c : Int)
    (hmax : 0 < v.MAX_RESULTS)
    (hs : (fetch_parliament_data v f o).success = true)
    (hc : (fetch_parliament_data v f o).count = some c) :
    (truncationNotice v c (fetch_parliament_data v f o).total_available ≠ "" ↔
      c = v.MAX_RESULTS) ∧
    (∀ t, (fetch_parliament_data v f o).total_available = some t → v.MAX_RESULTS < t →
      pyIn "Total available:"
        (truncationNotice v c (fetch_parliament_data v f o).total_available) = true) := by
  obtain ⟨filtered, limited, c', t', h1, h2, h3, hc', ht'⟩ := fetch_success_inv v f o hs
  have hcc : c = c' := by
    rw [hc] at hc'
    exact Option.some.inj hc'
  subst hcc
  have hmin := sliceValue_count_min v.MAX_RESULTS (le_of_lt hmax) filtered limited c t' h1 h2 h3
  have hle1 : c ≤ t' := by rw [hmin]; exact min_le_left _ _
  have hle2 : c ≤ v.MAX_RESULTS := by rw [hmin]; exact min_le_right _ _
  have hch : c = t' ∨ c = v.MAX_RESULTS := by
    rcases min_choice t' v.MAX_RESULTS with h | h
    · exact .inl (by rw [hmin, h])
    · exact .inr (by rw [hmin, h])
  rw [ht']
  constructor
  · constructor
    · intro hne
      by_cases hge : v.MAX_RESULTS ≤ c
      · omega
      · exfalso
        apply hne
        simp [truncationNotice, if_neg (by omega : ¬ c ≥ v.MAX_RESULTS)]
    · intro hceq
      rw [truncationNotice, if_pos (by omega : c ≥ v.MAX_RESULTS)]
      intro heq
      have hlen := congrArg String.length heq
      rw [String.length_append, String.length_append, String.length_append] at hlen
      have hx : "*Showing first ".length = 15 := rfl
      have hy : "".length = 0 := rfl
      omega
  · intro t ht hgt
    have htt : t' = t := Option.some.inj ht
    subst htt
    have hceq : c = v.MAX_RESULTS := by omega
    rw [truncationNotice, if_pos (by omega : c ≥ v.MAX_RESULTS)]
    have hbranch : t' > c := by omega
    simp only [if_pos hbranch]
    apply pyIn_append_right
    apply pyIn_of_isPrefixOf
    apply isPrefixOf_append_of
    apply isPrefixOf_append_of
    decide

/-- Witness for C8: with the default cap 10 and the unfiltered MEP
samples (exactly 10 records), the returned count is 10 and the notice is
nonempty. -/
theorem c8_witness :
    truncationNotice defaultValves 10
      (fetch_parliament_data defaultValves { data_type := "meps" }
        (.response 404 (.obj []))).total_available ≠ "" :=
  (c8_truncation_notice defaultValves { data_type := "meps" } (.response 404 (.obj []))
    10 (by decide) rfl rfl).1.mpr rfl




/-- A safe field is absent or a string, whatever default the `.get`
carries. -/
theorem mepSafeField_str (fs : List (String × Value)) (k : String)
    (h : mepSafeField fs k = true) (d : String) :
    ∃ s, (List.lookup k fs).getD (.str d) = .str s := by
  cases hl : List.lookup k fs with
  | none => exact ⟨d, by simp [hl]⟩
  | some v =>
    rw [mepSafeField, hl] at h
    cases v with
    | str t => exact ⟨t, by simp [hl]⟩
    | int n => simp at h
    | bool b => simp at h
    | list l => simp at h
    | obj o => simp at h

/-- A renderable item is a dict. -/
theorem renderableItem_obj (dt : String) (it : Value) (h : renderableItem dt it = true) :
    isObjValue it = true := by
  cases it <;> simp_all [renderableItem, isObjValue]

/-- `format_item` renders every renderable item without raising. -/
theorem format_item_ok (i : Nat) (dt : String) (it : Value)
    (h : renderableItem dt it = true) :
    ∃ s, format_item i it dt = .ok s := by
  cases it with
  | str s => simp [renderableItem] at h
  | int n => simp [renderableItem] at h
  | bool b => simp [renderableItem] at h
  | list l => simp [renderableItem] at h
  | obj fs =>
    by_cases hdt : dt = "meps"
    · subst hdt
      rw [renderableItem, if_pos rfl] at h
      simp only [Bool.and_eq_true] at h
      obtain ⟨⟨⟨hlab, hfam⟩, hgiv⟩, hid⟩ := h
      obtain ⟨s1, e1⟩ := mepSafeField_str fs "familyName" hfam ""
      obtain ⟨s2, e2⟩ := mepSafeField_str fs "givenName" hgiv ""
      obtain ⟨s3, e3⟩ := mepSafeField_str fs "label" hlab (s1 ++ " " ++ s2)
      obtain ⟨s4, e4⟩ := mepSafeField_str fs "id" hid "N/A"
      simp only [format_item, pure_bind, e1, e2, e3, e4]
      repeat' split
      all_goals exact ⟨_, rfl⟩
    · simp only [format_item, pure_bind, if_neg hdt]
      repeat' split
      all_goals exact ⟨_, rfl⟩

/-- The formatting loop renders every list of renderable items. -/
theorem formatItems_ok (dt : String) (items : List Value)
    (h : ∀ it ∈ items, renderableItem dt it = true) :
    ∀ i, ∃ s, formatItems dt i items = .ok s := by
  induction items with
  | nil => exact fun i => ⟨"", rfl⟩
  | cons it rest ih =>
    intro i
    obtain ⟨s1, hs1⟩ := format_item_ok i dt it (h it (by simp))
    obtain ⟨s2, hs2⟩ := ih (fun x hx => h x (by simp [hx])) (i + 1)
    exact ⟨s1 ++ s2, by simp [formatItems, hs1, hs2]⟩

/-- A computation with `isOk` set has an `ok` value. -/
theorem exists_ok {α : Type} {e : Except PyError α} (h : e.isOk = true) : ∃ s, e = .ok s := by
  cases e with
  | ok a => exact ⟨a, rfl⟩
  | error err => simp [Except.isOk, Except.toBool] at h

/-- The failure branch of `format_response` always renders the banner. -/
theorem format_response_error_ok (v : Valves) (q : String) (data : FetchDict)
    (e : String) (h : data.success = false) (he : data.error = some e) :
    ∃ s, format_response v q data = .ok s := by
  apply exists_ok
  simp [format_response, h, he, keyLookup, Except.isOk, Except.toBool]

/-- The success branch of `format_response` renders whenever the dict has
its keys and the results iterate to renderable items. -/
theorem format_response_success_ok (v : Valves) (q : String) (data : FetchDict)
    (f : Filters) (c : Int) (rv : Value) (items : List Value)
    (h1 : data.success = true) (h2 : data.filters = some f) (h3 : data.count = some c)
    (h4 : data.results = some rv) (h5 : iterateValue rv = .ok items)
    (h6 : ∀ it ∈ items, renderableItem f.data_type it = true) :
    ∃ s, format_response v q data = .ok s := by
  obtain ⟨body, hbody⟩ := formatItems_ok f.data_type items h6 1
  have hns : ¬(true = false) := by simp
  apply exists_ok
  simp only [format_response, h1, h2, h3, h4, keyLookup, pure_bind, except_ok_bind, if_neg hns]
  split
  · rfl
  · simp [h5, hbody, Except.isOk, Except.toBool]




/-- Every sample record of every data type is renderable for that data
type. -/
theorem renderable_get_sample_data (dt : String) :
    ∀ it ∈ get_sample_data dt, renderableItem dt it = true := by
  intro it hit
  by_cases hm : dt = "meps"
  · subst hm
    have hall : (get_sample_data "meps").all (renderableItem "meps") = true := by decide
    exact List.all_eq_true.mp hall it hit
  · have hobj := List.all_eq_true.mp (get_sample_data_objs dt) it hit
    cases it with
    | obj fs => simp [renderableItem, hm]
    | str s => simp [isObjValue] at hobj
    | int n => simp [isObjValue] at hobj
    | bool b => simp [isObjValue] at hobj
    | list l => simp [isObjValue] at hobj

/-- Truncation keeps only elements of the original list. -/
theorem mem_pySliceList {α : Type} (n : Int) (l : List α) :
    ∀ x ∈ pySliceList n l, x ∈ l := by
  intro x hx
  unfold pySliceList at hx
  split at hx
  · exact List.mem_of_mem_take hx
  · exact List.mem_of_mem_take hx

/-- The filtered sample records come from the sample records. -/
theorem mem_filteredSampleRecords (f : Filters) :
    ∀ x ∈ filteredSampleRecords f, x ∈ get_sample_data f.data_type := by
  intro x hx
  unfold filteredSampleRecords at hx
  split at hx
  · exact hx
  · exact (List.mem_filter.mp hx).1

/-- Client-side filtering of a list of dicts yields a sublist of it. -/
theorem apply_filters_objs_shape (items : List Value) (f : Filters)
    (h : ∀ it ∈ items, isObjValue it = true) :
    ∃ kept, apply_filters (.list items) f = .ok (.list kept) ∧ ∀ x ∈ kept, x ∈ items := by
  unfold apply_filters
  cases hc : f.country with
  | none => exact ⟨items, rfl, fun x hx => hx⟩
  | some code =>
    refine ⟨(items.filter (sampleKeep code)), ?_, fun x hx => (List.mem_filter.mp hx).1⟩
    show (do
        let kept ← filterByCountry code items
        pure (Value.list kept) : Except PyError Value) =
      .ok (.list (items.filter (sampleKeep code)))
    rw [filterByCountry_objs code items h]
    rfl

/-- The processing of a 200 response whose `data` entry is a list of
dicts: the result is the truncation of the filtered sublist, with the
two counts. -/
theorem processResponse_200_shape (v : Valves) (f : Filters)
    (fields : List (String × Value)) (items : List Value)
    (hd : (List.lookup "data" fields).getD (.list []) = .list items)
    (hobj : ∀ it ∈ items, isObjValue it = true) :
    ∃ kept, processResponse v f 200 (.obj fields) =
        .ok (.list (pySliceList v.MAX_RESULTS kept),
             ((pySliceList v.MAX_RESULTS kept).length : Int), (kept.length : Int)) ∧
      ∀ x ∈ kept, x ∈ items := by
  have hpd : parliamentDataOf f 200 (.obj fields) = .ok (.list items) := by
    unfold parliamentDataOf
    rw [if_neg (by simp)]
    show pure ((List.lookup "data" fields).getD (.list [])) = Except.ok (.list items)
    rw [hd]
    rfl
  obtain ⟨kept, hk, hsub⟩ := apply_filters_objs_shape items f hobj
  refine ⟨kept, ?_, hsub⟩
  unfold processResponse
  rw [hpd]
  simp only [except_ok_bind]
  rw [hk]
  simp only [except_ok_bind]
  simp [pySliceValue, pyLen]

/-- **C10 counterexample.** A 200 response whose `data` list contains a
non-dict item reaches `format_item`, where `item.get` raises an
`AttributeError` that propagates out of `pipe`: the pipeline does not
return a string for every behaviour of the HTTP layer. -/
theorem c10_counterexample :
    pipe defaultValves "show meps" "model-id" [] []
        (.response 200 (.obj [("data", .list [.int 5])])) =
      .error ⟨"'int' object has no attribute 'get'"⟩ := rfl

/-- **C10 amended.** `pipe` returns a complete string for every input and
every transport exception, every non-200 response, and every 200 response
whose JSON body's `data` entry is a list of renderable records; a 200
body with a non-record item can instead raise (see the counterexample). -/
theorem c10_amended (v : Valves) (msg mid : String) (msgs : List (String × String))
    (bod : List (String × Value)) (o : HttpOutcome)
    (h : SafeOutcome (parse_query msg) o) :
    ∃ s, pipe v msg mid msgs bod o = .ok s := by
  unfold pipe
  split
  · exact ⟨_, rfl⟩
  · cases o with
    | requestError m =>
      exact format_response_error_ok v msg _ ("API request failed: " ++ m) rfl rfl
    | response status body =>
      by_cases hst : status = 200
      · subst hst
        have hgood := (h : (200 : Int) ≠ 200 ∨ _).resolve_left (fun hx => hx rfl)
        obtain ⟨fields, items, hb, hd, hrend⟩ := hgood
        subst hb
        have hobj : ∀ it ∈ items, isObjValue it = true :=
          fun it hit => renderableItem_obj _ it (hrend it hit)
        obtain ⟨kept, hproc, hsub⟩ :=
          processResponse_200_shape v (parse_query msg) fields items hd hobj
        have hfetch : fetch_parliament_data v (parse_query msg) (.response 200 (.obj fields)) =
            { success := true,
              count := some ((pySliceList v.MAX_RESULTS kept).length : Int),
              total_available := some ((kept.length : Int)),
              results := some (.list (pySliceList v.MAX_RESULTS kept)),
              url := some (build_api_url v (parse_query msg)),
              filters := some (parse_query msg) } := by
          simp [fetch_parliament_data, hproc]
        rw [hfetch]
        exact format_response_success_ok v msg _ (parse_query msg) _
          (.list (pySliceList v.MAX_RESULTS kept)) (pySliceList v.MAX_RESULTS kept)
          rfl rfl rfl rfl rfl
          (fun it hit => hrend it (hsub it (mem_pySliceList v.MAX_RESULTS kept it hit)))
      · rw [fetch_non200 v (parse_query msg) status body hst]
        exact format_response_success_ok v msg _ (parse_query msg) _
          (.list (pySliceList v.MAX_RESULTS (filteredSampleRecords (parse_query msg))))
          (pySliceList v.MAX_RESULTS (filteredSampleRecords (parse_query msg)))
          rfl rfl rfl rfl rfl
          (fun it hit => renderable_get_sample_data (parse_query msg).data_type it
            (mem_filteredSampleRecords (parse_query msg) it
              (mem_pySliceList v.MAX_RESULTS (filteredSampleRecords (parse_query msg)) it hit)))

/-- Witness for C10 at a concrete 500 response. -/
theorem c10_amended_witness :
    ∃ s, pipe defaultValves "italian meps" "model-id" [] [] (.response 500 (.obj [])) = .ok s :=
  c10_amended defaultValves "italian meps" "model-id" [] [] (.response 500 (.obj []))
    (Or.inl (by decide))




/-- A list whose first `p.length` elements are `p` has `p` as a prefix. -/
theorem isPrefixOf_of_take (p l : List Char) (h : l.take p.length = p) :
    p.isPrefixOf l = true := by
  induction p generalizing l with
  | nil => simp [List.isPrefixOf]
  | cons c p ih =>
    cases l with
    | nil => simp at h
    | cons d l =>
      simp only [List.length, List.take, List.cons.injEq] at h
      simp only [List.isPrefixOf, Bool.and_eq_true, beq_iff_eq]
      exact ⟨h.1.symm, ih l h.2⟩

/-- A needle that is the initial `needle.length`-character cut of the
haystack occurs in it. -/
theorem pyIn_of_take (n h : String) (hp : h.data.take n.data.length = n.data) :
    pyIn n h = true :=
  pyIn_of_isPrefixOf n h (isPrefixOf_of_take n.data h.data hp)

/-- On a renderable record, the `meps` template always produces its four
lines, with some heading name and the three `get`-with-`N/A` detail
fields. -/
theorem format_item_meps_shape (i : Nat) (rec : Record)
    (h : renderableItem "meps" (.obj rec) = true) :
    ∃ fn, format_item i (.obj rec) "meps" =
      .ok ("**" ++ toString i ++ ". " ++ fn ++ "**\n" ++
           bulletPrefix ++ "ID: " ++ getStr rec "identifier" ++ "\n" ++
           bulletPrefix ++ "Family Name: " ++ getStr rec "familyName" ++ "\n" ++
           bulletPrefix ++ "Given Name: " ++ getStr rec "givenName" ++ "\n\n") := by
  rw [renderableItem, if_pos rfl] at h
  simp only [Bool.and_eq_true] at h
  obtain ⟨⟨⟨hlab, hfam⟩, hgiv⟩, hid⟩ := h
  obtain ⟨s1, e1⟩ := mepSafeField_str rec "familyName" hfam ""
  obtain ⟨s2, e2⟩ := mepSafeField_str rec "givenName" hgiv ""
  obtain ⟨s3, e3⟩ := mepSafeField_str rec "label" hlab (s1 ++ " " ++ s2)
  obtain ⟨s4, e4⟩ := mepSafeField_str rec "id" hid "N/A"
  simp only [format_item, pure_bind]
  rw [if_pos trivial]
  simp only [e1, e2, e3, e4]
  repeat' split
  all_goals exact ⟨_, rfl⟩

/-- **C9 amended.** For every record, each expected field that is absent
still gets its line, rendered with the literal `N/A` placeholder — with
two qualifications the code forces: the `answered` field of `questions`
renders `No` instead of `N/A`, and on the `meps` template the per-line
guarantee holds for records whose name-related fields are strings when
present (a present non-string `label`/`familyName`/`givenName`/`id`
makes `format_item` raise), while the `meps` heading renders `N/A` when
`label`, `familyName`, `givenName` and `id` are all absent. -/
theorem c9_amended :
    (∀ (i : Nat) (rec : Record) (k needle : String),
      (k, needle) ∈ [("title", ". N/A**\n"), ("identifier", "ID: N/A\n"),
        ("type", "Type: N/A\n"), ("startDate", "Start Date: N/A\n"),
        ("endDate", "End Date: N/A\n\n")] →
      List.lookup k rec = none →
      ∃ out, format_item i (.obj rec) "meetings" = .ok out ∧ pyIn needle out = true) ∧
    (∀ (i : Nat) (rec : Record) (k needle : String),
      (k, needle) ∈ [("title", ". N/A**\n"), ("identifier", "ID: N/A\n"),
        ("type", "Type: N/A\n"), ("adoptionDate", "Adoption Date: N/A\n"),
        ("subject", "Subject: N/A\n\n")] →
      List.lookup k rec = none →
      ∃ out, format_item i (.obj rec) "adopted-texts" = .ok out ∧ pyIn needle out = true) ∧
    (∀ (i : Nat) (rec : Record) (k needle : String),
      (k, needle) ∈ [("title", ". N/A**\n"), ("identifier", "ID: N/A\n"),
        ("documentType", "Type: N/A\n"), ("author", "Author: N/A\n"),
        ("date", "Date: N/A\n\n")] →
      List.lookup k rec = none →
      ∃ out, format_item i (.obj rec) "documents" = .ok out ∧ pyIn needle out = true) ∧
    (∀ (i : Nat) (rec : Record) (k needle : String),
      (k, needle) ∈ [("title", ". N/A**\n"), ("identifier", "ID: N/A\n"),
        ("questionType", "Type: N/A\n"), ("author", "Author: N/A\n"),
        ("date", "Date: N/A\n"), ("answered", "Answered: No\n\n")] →
      List.lookup k rec = none →
      ∃ out, format_item i (.obj rec) "questions" = .ok out ∧ pyIn needle out = true) ∧
    (∀ (i : Nat) (rec : Record) (k needle : String),
      (k, needle) ∈ [("identifier", "ID: N/A\n"), ("familyName", "Family Name: N/A\n"),
        ("givenName", "Given Name: N/A\n\n")] →
      List.lookup k rec = none →
      renderableItem "meps" (.obj rec) = true →
      ∃ out, format_item i (.obj rec) "meps" = .ok out ∧ pyIn needle out = true) ∧
    (∀ (i : Nat) (rec : Record),
      List.lookup "label" rec = none → List.lookup "familyName" rec = none →
      List.lookup "givenName" rec = none → List.lookup "id" rec = none →
      ∃ out, format_item i (.obj rec) "meps" = .ok out ∧ pyIn ". N/A**\n" out = true) := by
  refine ⟨?_, ?_, ?_, ?_, ?_, ?_⟩
  · intro i rec k needle hmem hnone
    simp only [List.mem_cons, Prod.mk.injEq, List.not_mem_nil, or_false] at hmem
    rcases hmem with ⟨rfl, rfl⟩ | ⟨rfl, rfl⟩ | ⟨rfl, rfl⟩ | ⟨rfl, rfl⟩ | ⟨rfl, rfl⟩ <;>
    · refine ⟨_, rfl, ?_⟩
      simp only [getStr, hnone, String.append_assoc]
      repeat first
        | (apply pyIn_of_take; rfl)
        | apply pyIn_append_right
  · intro i rec k needle hmem hnone
    simp only [List.mem_cons, Prod.mk.injEq, List.not_mem_nil, or_false] at hmem
    rcases hmem with ⟨rfl, rfl⟩ | ⟨rfl, rfl⟩ | ⟨rfl, rfl⟩ | ⟨rfl, rfl⟩ | ⟨rfl, rfl⟩ <;>
    · refine ⟨_, rfl, ?_⟩
      simp only [getStr, hnone, String.append_assoc]
      repeat first
        | (apply pyIn_of_take; rfl)
        | apply pyIn_append_right
  · intro i rec k needle hmem hnone
    simp only [List.mem_cons, Prod.mk.injEq, List.not_mem_nil, or_false] at hmem
    rcases hmem with ⟨rfl, rfl⟩ | ⟨rfl, rfl⟩ | ⟨rfl, rfl⟩ | ⟨rfl, rfl⟩ | ⟨rfl, rfl⟩ <;>
    · refine ⟨_, rfl, ?_⟩
      simp only [getStr, hnone, String.append_assoc]
      repeat first
        | (apply pyIn_of_take; rfl)
        | apply pyIn_append_right
  · intro i rec k needle hmem hnone
    simp only [List.mem_cons, Prod.mk.injEq, List.not_mem_nil, or_false] at hmem
    rcases hmem with ⟨rfl, rfl⟩ | ⟨rfl, rfl⟩ | ⟨rfl, rfl⟩ | ⟨rfl, rfl⟩ | ⟨rfl, rfl⟩ | ⟨rfl, rfl⟩ <;>
    · refine ⟨_, rfl, ?_⟩
      simp only [getStr, hnone, String.append_assoc]
      repeat first
        | (apply pyIn_of_take; rfl)
        | apply pyIn_append_right
  · intro i rec k needle hmem hnone hrend
    obtain ⟨fn, hfi⟩ := format_item_meps_shape i rec hrend
    simp only [List.mem_cons, Prod.mk.injEq, List.not_mem_nil, or_false] at hmem
    rcases hmem with ⟨rfl, rfl⟩ | ⟨rfl, rfl⟩ | ⟨rfl, rfl⟩ <;>
    · refine ⟨_, hfi, ?_⟩
      simp only [getStr, hnone, String.append_assoc]
      repeat first
        | (apply pyIn_of_take; rfl)
        | apply pyIn_append_right
  · intro i rec h1 h2 h3 h4
    have heq : format_item i (.obj rec) "meps" =
        .ok ("**" ++ toString i ++ ". " ++ "N/A" ++ "**\n" ++
             bulletPrefix ++ "ID: " ++ getStr rec "identifier" ++ "\n" ++
             bulletPrefix ++ "Family Name: " ++ getStr rec "familyName" ++ "\n" ++
             bulletPrefix ++ "Given Name: " ++ getStr rec "givenName" ++ "\n\n") := by
      simp only [format_item, pure_bind, h1, h2, h3, h4]
      rfl
    refine ⟨_, heq, ?_⟩
    simp only [getStr, String.append_assoc]
    repeat first
      | (apply pyIn_of_take; rfl)
      | apply pyIn_append_right

/-- Witness for C9 at the repository's own second sample meeting record,
which lacks only the `endDate` field. -/
theorem c9_amended_witness :
    ∃ out, format_item 1
        (.obj [("identifier", .str "EP-2024-01-22-AGRI"),
               ("title", .str "Committee on Agriculture Meeting"),
               ("startDate", .str "2024-01-22"), ("type", .str "Committee meeting")])
        "meetings" = .ok out ∧ pyIn "End Date: N/A\n\n" out = true :=
  c9_amended.1 1
    [("identifier", .str "EP-2024-01-22-AGRI"),
     ("title", .str "Committee on Agriculture Meeting"),
     ("startDate", .str "2024-01-22"), ("type", .str "Committee meeting")]
    "endDate" "End Date: N/A\n\n" (by decide) rfl

end Europarl
